import Mathlib

/-!
Verification development for the `pytorch_quantum.operators` module
(`src/pytorch_quantum/operators.py`).

The module defines a class hierarchy of quantum gate operators:
`Operator` (base, with `matrix` / `eigvals` properties and a `forward`
dispatch method), `Observable` (adds `diagonalizing_gates`), `Operation`
(adds parameter ownership: `build_params` / `reset_params`),
`DiagonalOperation` (derives its matrix as `diag` of its eigenvalues),
and 24 concrete gate classes.

The shallow embedding below models:
  * numeric parameter scalars exactly (a rational plus a rational
    multiple of pi, covering every literal the module uses);
  * the parameter tensor of shape `[batch, num_params]` as a list of
    rows whose entries are `Option` scalars (`none` = the uninitialized
    garbage produced by `torch.empty`);
  * the random initialization path (`torch.nn.init.uniform_`) through an
    explicit oracle argument, so that nondeterminism is visible;
  * matrices over the exact complex subring (1/2)*Z[sqrt 2, i], which
    contains every entry of the fixed reference matrices; matrices
    produced by the external `pytorch_quantum.functional` helpers
    (`rx_matrix`, ...; that file is not under `src/`) are kept symbolic
    as an uninterpreted constructor applied to the exact arguments the
    source passes;
  * Python exceptions as an `Err` type returned through `Except`.
-/

deriving instance DecidableEq for Except

namespace PyQ

/-- A parameter scalar: the exact value `rat + pim * pi`.  Every scalar the
source manipulates is either a plain number or a rational multiple of
`np.pi`, so this representation is exact and has decidable equality. -/
structure PScalar where
  rat : ℚ
  pim : ℚ
deriving DecidableEq, Repr

/-- One entry of a parameter tensor.  `none` models the uninitialized
garbage contents of a `torch.empty` allocation (`build_params`, line 174). -/
abbrev PEntry := Option PScalar

/-- A parameter tensor of shape `[batch, num_params]`: a list of batch rows. -/
abbrev ParamsT := List (List PEntry)

/-- Python exceptions raised by the module. `assertionError` is the
`ParameterConflict` failure of `Operator.forward`; `indexError` is the
out-of-bounds failure of `self.params[:, k]` in `reset_params`;
`notImplementedError` is raised by the base `_matrix` / `_eigvals` /
`diagonalizing_gates`; `typeError` is a call with a missing required
positional argument; `attributeError` is an access to a method that the
class does not define. -/
inductive Err
  | assertionError
  | notImplementedError
  | typeError
  | indexError
  | attributeError
deriving DecidableEq, Repr

/-- The 24 concrete gate classes of the catalog, in source order. -/
inductive GateType
  | Hadamard | PauliX | PauliY | PauliZ | S | T | SX
  | CNOT | CZ | CY | SWAP | CSWAP | Toffoli
  | RX | RY | RZ | PhaseShift | Rot | MultiRZ
  | CRX | CRY | CRZ | CRot | U1
deriving DecidableEq, Repr

/-- The class attribute `Operator.fixed_ops` (lines 35-49), verbatim. -/
def fixed_ops : List String :=
  ["Hadamard", "PauliX", "PauliY", "PauliZ", "S", "T", "SX",
   "CNOT", "CZ", "CY", "SWAP", "CSWAP", "Toffoli"]

/-- The class attribute `Operator.parameterized_ops` (lines 51-63), verbatim. -/
def parameterized_ops : List String :=
  ["RX", "RY", "RZ", "PhaseShift", "Rot", "MultiRZ",
   "CRX", "CRY", "CRZ", "CRot", "U1"]

/-- The Python class name, which `Operator.__init__` stores as `self._name`
(line 78). -/
def gateName : GateType → String
  | .Hadamard => "Hadamard"
  | .PauliX => "PauliX"
  | .PauliY => "PauliY"
  | .PauliZ => "PauliZ"
  | .S => "S"
  | .T => "T"
  | .SX => "SX"
  | .CNOT => "CNOT"
  | .CZ => "CZ"
  | .CY => "CY"
  | .SWAP => "SWAP"
  | .CSWAP => "CSWAP"
  | .Toffoli => "Toffoli"
  | .RX => "RX"
  | .RY => "RY"
  | .RZ => "RZ"
  | .PhaseShift => "PhaseShift"
  | .Rot => "Rot"
  | .MultiRZ => "MultiRZ"
  | .CRX => "CRX"
  | .CRY => "CRY"
  | .CRZ => "CRZ"
  | .CRot => "CRot"
  | .U1 => "U1"

/-- The sentinel `WiresEnum.AnyWires` (line 21). -/
def AnyWires : Int := -1

/-- The sentinel `WiresEnum.AllWires` (line 22). -/
def AllWires : Int := 0

/-- The class attribute `num_params` of each concrete gate class. -/
def num_params : GateType → Nat
  | .Hadamard => 0
  | .PauliX => 0
  | .PauliY => 0
  | .PauliZ => 0
  | .S => 0
  | .T => 0
  | .SX => 0
  | .CNOT => 0
  | .CZ => 0
  | .CY => 0
  | .SWAP => 0
  | .CSWAP => 0
  | .Toffoli => 0
  | .RX => 1
  | .RY => 1
  | .RZ => 1
  | .PhaseShift => 1
  | .Rot => 3
  | .MultiRZ => 1
  | .CRX => 1
  | .CRY => 1
  | .CRZ => 1
  | .CRot => 3
  | .U1 => 1

/-- The class attribute `num_wires` of each concrete gate class
(`MultiRZ.num_wires = AnyWires`, line 454). -/
def num_wires : GateType → Int
  | .Hadamard => 1
  | .PauliX => 1
  | .PauliY => 1
  | .PauliZ => 1
  | .S => 1
  | .T => 1
  | .SX => 1
  | .CNOT => 2
  | .CZ => 2
  | .CY => 2
  | .SWAP => 2
  | .CSWAP => 3
  | .Toffoli => 3
  | .RX => 1
  | .RY => 1
  | .RZ => 1
  | .PhaseShift => 1
  | .Rot => 1
  | .MultiRZ => AnyWires
  | .CRX => 2
  | .CRY => 2
  | .CRZ => 2
  | .CRot => 2
  | .U1 => 1

/-- The name of the external kernel each class stores as
`func = staticmethod(tqf.<name>)`. -/
def funcName : GateType → String
  | .Hadamard => "hadamard"
  | .PauliX => "paulix"
  | .PauliY => "pauliy"
  | .PauliZ => "pauliz"
  | .S => "s"
  | .T => "t"
  | .SX => "sx"
  | .CNOT => "cnot"
  | .CZ => "cz"
  | .CY => "cy"
  | .SWAP => "swap"
  | .CSWAP => "cswap"
  | .Toffoli => "toffoli"
  | .RX => "rx"
  | .RY => "ry"
  | .RZ => "rz"
  | .PhaseShift => "phaseshift"
  | .Rot => "rot"
  | .MultiRZ => "multirz"
  | .CRX => "crx"
  | .CRY => "cry"
  | .CRZ => "crz"
  | .CRot => "crot"
  | .U1 => "u1"

/-- The subclasses of `DiagonalOperation` (lines 283, 299, 342, 422, 432,
452, 502), i.e. the Diagonal category of the catalog. -/
def diagonalTypes : List GateType :=
  [.S, .T, .CZ, .RZ, .PhaseShift, .U1, .MultiRZ]

/-- An exact complex matrix entry: the value
`(rea + reb * sqrt 2) / 2 + ((ima + imb * sqrt 2) / 2) * i`.
Every entry of the fixed reference matrices and of the class-level
eigenvalue tensors lies in this subring, and two entries are equal iff
their four integer coordinates are (1, sqrt 2 are Q-linearly
independent), so structural equality is exact complex equality. -/
structure CVal where
  rea : ℤ
  reb : ℤ
  ima : ℤ
  imb : ℤ
deriving DecidableEq, Repr

/-- The value 0. -/
def c0 : CVal := ⟨0, 0, 0, 0⟩
/-- The value 1. -/
def c1 : CVal := ⟨2, 0, 0, 0⟩
/-- The value -1. -/
def cm1 : CVal := ⟨-2, 0, 0, 0⟩
/-- The value i. -/
def ci : CVal := ⟨0, 0, 2, 0⟩
/-- The value -i. -/
def cmi : CVal := ⟨0, 0, -2, 0⟩
/-- The value 1 / sqrt 2. -/
def crt : CVal := ⟨0, 1, 0, 0⟩
/-- The value -1 / sqrt 2. -/
def cmrt : CVal := ⟨0, -1, 0, 0⟩
/-- The value exp(i pi / 4) = (1 + i) / sqrt 2. -/
def cepi4 : CVal := ⟨0, 1, 0, 1⟩
/-- The value (1 + i) / 2. -/
def chpi : CVal := ⟨1, 0, 1, 0⟩
/-- The value (1 - i) / 2. -/
def chmi : CVal := ⟨1, 0, -1, 0⟩

/-- A matrix value.  `ofEntries` is a concrete matrix given by its rows.
`externalFn f p` is the (unknown) matrix returned by the external helper
`pytorch_quantum.functional.f` applied to the parameter argument `p`;
that module is not under `src/`, so its results are kept symbolic. -/
inductive Mat
  | ofEntries (rows : List (List CVal))
  | externalFn (fname : String) (params : Option ParamsT)
deriving DecidableEq, Repr

/-- The function `torch.diag` on a 1-D tensor: the square matrix with `v` on the
diagonal and zeros elsewhere (used by `DiagonalOperation._matrix`,
line 202). -/
def diagMat (v : List CVal) : Mat :=
  Mat.ofEntries ((List.range v.length).map (fun i =>
    (List.range v.length).map (fun j => if i = j then v.getD i c0 else c0)))

/-- Modelled from the spec: the registry `mat_dict` from
`pytorch_quantum.functional` (imported on line 9) is code of this
repository that is not under `src/`.  Spec section 4.1 fixes its contract:
"`lookup(gateId) -> Matrix` for every fixed gate; values are exact unitary
matrices for Hadamard, Pauli-X/Y/Z, S, T, sqrt-X, CNOT, CZ, CY, SWAP,
CSWAP, Toffoli" - i.e. the textbook matrices of those named gates, written
out here exactly. -/
def mat_dict : String → Mat
  | "hadamard" => .ofEntries [[crt, crt], [crt, cmrt]]
  | "paulix" => .ofEntries [[c0, c1], [c1, c0]]
  | "pauliy" => .ofEntries [[c0, cmi], [ci, c0]]
  | "pauliz" => .ofEntries [[c1, c0], [c0, cm1]]
  | "s" => .ofEntries [[c1, c0], [c0, ci]]
  | "t" => .ofEntries [[c1, c0], [c0, cepi4]]
  | "sx" => .ofEntries [[chpi, chmi], [chmi, chpi]]
  | "cnot" => .ofEntries [[c1, c0, c0, c0], [c0, c1, c0, c0],
                          [c0, c0, c0, c1], [c0, c0, c1, c0]]
  | "cz" => .ofEntries [[c1, c0, c0, c0], [c0, c1, c0, c0],
                        [c0, c0, c1, c0], [c0, c0, c0, cm1]]
  | "cy" => .ofEntries [[c1, c0, c0, c0], [c0, c1, c0, c0],
                        [c0, c0, c0, cmi], [c0, c0, ci, c0]]
  | "swap" => .ofEntries [[c1, c0, c0, c0], [c0, c0, c1, c0],
                          [c0, c1, c0, c0], [c0, c0, c0, c1]]
  | "cswap" => .ofEntries
      [[c1, c0, c0, c0, c0, c0, c0, c0],
       [c0, c1, c0, c0, c0, c0, c0, c0],
       [c0, c0, c1, c0, c0, c0, c0, c0],
       [c0, c0, c0, c1, c0, c0, c0, c0],
       [c0, c0, c0, c0, c1, c0, c0, c0],
       [c0, c0, c0, c0, c0, c0, c1, c0],
       [c0, c0, c0, c0, c0, c1, c0, c0],
       [c0, c0, c0, c0, c0, c0, c0, c1]]
  | "toffoli" => .ofEntries
      [[c1, c0, c0, c0, c0, c0, c0, c0],
       [c0, c1, c0, c0, c0, c0, c0, c0],
       [c0, c0, c1, c0, c0, c0, c0, c0],
       [c0, c0, c0, c1, c0, c0, c0, c0],
       [c0, c0, c0, c0, c1, c0, c0, c0],
       [c0, c0, c0, c0, c0, c1, c0, c0],
       [c0, c0, c0, c0, c0, c0, c0, c1],
       [c0, c0, c0, c0, c0, c0, c1, c0]]
  | _ => .ofEntries []

/-- How the MRO-resolved `_matrix` classmethod of a gate class computes.
`fromConst m` is `return cls.matrix` with class attribute `m`;
`fromFn f` is `return tqf.f(params)` (external helper, kept symbolic);
`fromFn2 f` is `MultiRZ._matrix(cls, params, n_wires)` (line 458), a
classmethod with a second required positional argument;
`diagOfEig` is the inherited `DiagonalOperation._matrix`
(`torch.diag(cls._eigvals(params))`, line 202);
`notImpl` is the base `Operator._matrix` (`raise NotImplementedError`,
line 82). -/
inductive MatrixImpl
  | fromConst (m : Mat)
  | fromFn (fname : String)
  | fromFn2 (fname : String)
  | diagOfEig
  | notImpl
deriving DecidableEq, Repr

/-- The MRO-resolved `_matrix` of each concrete gate class.  Every
concrete class overrides `_matrix`, so the inherited `diagOfEig` /
`notImpl` defaults are never the resolution for a concrete class. -/
def classMatrix : GateType → MatrixImpl
  | .Hadamard => .fromConst (mat_dict "hadamard")
  | .PauliX => .fromConst (mat_dict "paulix")
  | .PauliY => .fromConst (mat_dict "pauliy")
  | .PauliZ => .fromConst (mat_dict "pauliz")
  | .S => .fromConst (mat_dict "s")
  | .T => .fromConst (mat_dict "t")
  | .SX => .fromConst (mat_dict "sx")
  | .CNOT => .fromConst (mat_dict "cnot")
  | .CZ => .fromConst (mat_dict "cz")
  | .CY => .fromConst (mat_dict "cy")
  | .SWAP => .fromConst (mat_dict "swap")
  | .CSWAP => .fromConst (mat_dict "cswap")
  | .Toffoli => .fromConst (mat_dict "toffoli")
  | .RX => .fromFn "rx_matrix"
  | .RY => .fromFn "ry_matrix"
  | .RZ => .fromFn "rz_matrix"
  | .PhaseShift => .fromFn "phaseshift_matrix"
  | .Rot => .fromFn "rot_matrix"
  | .MultiRZ => .fromFn2 "multirz_matrix"
  | .CRX => .fromFn "crx_matrix"
  | .CRY => .fromFn "cry_matrix"
  | .CRZ => .fromFn "crz_matrix"
  | .CRot => .fromFn "crot_matrix"
  | .U1 => .fromFn "u1_matrix"

/-- How the MRO-resolved `_eigvals` classmethod (equivalently, the
class-level `eigvals` attribute where one exists) of a gate class
computes.  `fromConst v` is `return cls.eigvals` with the class attribute
`v`; `notImpl` is the inherited `raise NotImplementedError` (base
`Operator._eigvals`, line 90, or `DiagonalOperation._eigvals`,
line 194). -/
inductive EigImpl
  | fromConst (v : List CVal)
  | notImpl
deriving DecidableEq, Repr

/-- The MRO-resolved `_eigvals` of each concrete gate class.  The constant
vectors are the class attributes verbatim: note line 302 gives `T` the
eigenvalues `[1, 1j]`.  `CNOT`, `CY`, `SWAP`, `CSWAP`, `Toffoli`, and all
parameterized classes (`RX` ... `U1`) define no `_eigvals`, so they
inherit a `raise NotImplementedError`. -/
def classEig : GateType → EigImpl
  | .Hadamard => .fromConst [c1, cm1]
  | .PauliX => .fromConst [c1, cm1]
  | .PauliY => .fromConst [c1, cm1]
  | .PauliZ => .fromConst [c1, cm1]
  | .S => .fromConst [c1, ci]
  | .T => .fromConst [c1, ci]
  | .SX => .fromConst [c1, ci]
  | .CZ => .fromConst [c1, c1, c1, cm1]
  | _ => .notImpl

/-- An operator instance: the attributes set by `Operator.__init__`
(lines 74-78) and `Operation.__init__` (lines 135-156).  The pure
Observable classes (`PauliX`, `PauliY`, `PauliZ`) never set a
`has_params` / `trainable` attribute in Python; they are modelled with
`has_params = false`, which is unobservable because `forward` reads
`has_params` only after the `name in fixed_ops` test fails, and those
class names are in `fixed_ops`. -/
structure Gate where
  type : GateType
  name : String
  params : Option ParamsT
  n_wires : Option Int
  has_params : Bool
  trainable : Bool
deriving DecidableEq, Repr

/-- A no-argument construction (`tq.S()`, `tq.PauliY()`, ...): all the
`Operation.__init__` defaults, or the `Observable.__init__` path; either
way `params = None`, `n_wires = None`. -/
def defaultGate (t : GateType) : Gate :=
  ⟨t, gateName t, none, none, false, false⟩

/-- The method `Operation.build_params` (lines 173-178): a fresh `torch.empty`
tensor of shape `[1, num_params]`, i.e. one batch row of uninitialized
entries. -/
def build_params (t : GateType) : ParamsT :=
  [List.replicate (num_params t) none]

/-- The `init_params` construction argument: Python distinguishes a
`list` from any other (scalar) value by `isinstance(init_params, list)`
(line 182). -/
inductive InitVal
  | scalar (v : PScalar)
  | list (l : List PScalar)
deriving DecidableEq, Repr

/-- The write `torch.nn.init.constant_(self.params[:, k], v)` (line 184): writes
column `k` of every batch row; raises `IndexError` when `k` is out of
bounds for dimension 1. -/
def setColumn (rows : ParamsT) (k : Nat) (v : PScalar) : Except Err ParamsT :=
  if rows.all (fun r => k < r.length) then
    .ok (rows.map (fun r => r.set k (some v)))
  else
    .error .indexError

/-- The loop `for k, init_param in enumerate(init_params)` (line 183),
writing successive columns starting at `k`. -/
def setColumns (rows : ParamsT) (l : List PScalar) (k : Nat) : Except Err ParamsT :=
  match l with
  | [] => .ok rows
  | v :: rest =>
    match setColumn rows k v with
    | .ok rows2 => setColumns rows2 rest (k + 1)
    | .error e => .error e

/-- The method `Operation.reset_params` (lines 180-188).  The random branch
(`torch.nn.init.uniform_(self.params, 0, 2 * np.pi)`) is modelled through
the explicit oracle `o`, which supplies the drawn value for the entry at
(row, column). -/
def reset_params (rows : ParamsT) (init : Option InitVal)
    (o : Nat → Nat → PScalar) : Except Err ParamsT :=
  match init with
  | some (.list l) => setColumns rows l 0
  | some (.scalar v) => .ok (rows.map (fun r => r.map (fun _ => some v)))
  | none => .ok (rows.enum.map (fun ir =>
      ir.2.enum.map (fun ke => some (o ir.1 ke.1))))

/-- The constructor `Operation.__init__` (lines 135-156).  The returned flag records
whether the `trainable and not has_params` diagnostic
(`logger.warning`, line 148) was emitted; in that case `has_params` is
forced to `True`. -/
def mkOperation (t : GateType) (has_params trainable : Bool)
    (init : Option InitVal) (n_wires : Option Int)
    (o : Nat → Nat → PScalar) : Except Err (Gate × Bool) :=
  let warn := trainable && ! has_params
  let hp := has_params || warn
  if hp then
    match reset_params (build_params t) init o with
    | .ok ps =>
      .ok ({ type := t, name := gateName t, params := some ps,
             n_wires := n_wires, has_params := true,
             trainable := trainable }, warn)
    | .error e => .error e
  else
    .ok ({ type := t, name := gateName t, params := none,
           n_wires := n_wires, has_params := false,
           trainable := trainable }, warn)

/-- The `matrix` property (`Operator.matrix`, lines 84-86, and the
identical `Operation.matrix`, lines 158-162): `self._matrix(self.params)`.
For the classes whose `_matrix` needs a second positional argument
(`MultiRZ._matrix(cls, params, n_wires)`), the one-argument call made by
the property raises `TypeError`. -/
def matrixOf (g : Gate) : Except Err Mat :=
  match classMatrix g.type with
  | .fromConst m => .ok m
  | .fromFn f => .ok (Mat.externalFn f g.params)
  | .fromFn2 _ => .error .typeError
  | .diagOfEig =>
    match classEig g.type with
    | .fromConst v => .ok (diagMat v)
    | .notImpl => .error .notImplementedError
  | .notImpl => .error .notImplementedError

/-- The `eigvals` property (`Operator.eigvals`, lines 92-94;
`Operation.eigvals`, lines 164-168; `DiagonalOperation.eigvals`,
lines 196-198 delegates to the same): `self._eigvals(self.params)`. -/
def eigvalsOf (g : Gate) : Except Err (List CVal) :=
  match classEig g.type with
  | .fromConst v => .ok v
  | .notImpl => .error .notImplementedError

/-- A Bool recording whether an `Except` result is a success. -/
def okB {α : Type} (e : Except Err α) : Bool :=
  match e with
  | .ok _ => true
  | .error _ => false

/-- The record of the single kernel invocation `self.func(...)` made by
`Operator.forward` (lines 108-122).  The four call shapes of the source
(`params` and `n_wires` keyword arguments each present or absent) are
captured by the two `Option` fields. -/
structure KernelCall where
  fname : String
  device : Nat
  wires : List Int
  params : Option ParamsT
  n_wires : Option Int
deriving DecidableEq, Repr

/-- The assertion tested by `Operator.forward` (lines 101-102):
`self.name in self.fixed_ops or self.has_params ^ (params is not None)`.
The Python `or` short-circuits, so `has_params` is read only when the
name test fails. -/
def forwardAllowed (g : Gate) (p : Option ParamsT) : Bool :=
  fixed_ops.contains g.name || (g.has_params != p.isSome)

/-- The method `Operator.forward` (lines 99-122).  On an assertion failure the
`AssertionError` is re-raised (lines 103-106).  Otherwise, if call-time
`params` were supplied they are assigned to `self.params` (lines
108-109), and the kernel `self.func` is invoked with `params` iff
`self.params is not None` and with `n_wires` iff
`self.n_wires is not None` (lines 112-122).  The result pairs the kernel
invocation with the post-call state of the gate. -/
def forwardOp (g : Gate) (q_device : Nat) (wires : List Int)
    (p : Option ParamsT) : Except Err (KernelCall × Gate) :=
  if forwardAllowed g p then
    match p with
    | some pp =>
      .ok ({ fname := funcName g.type, device := q_device, wires := wires,
             params := some pp, n_wires := g.n_wires },
           { g with params := some pp })
    | none =>
      .ok ({ fname := funcName g.type, device := q_device, wires := wires,
             params := g.params, n_wires := g.n_wires }, g)
  else
    .error .assertionError

/-- The `RY` instance built by `Hadamard.diagonalizing_gates` (lines
220-223): `tq.RY(has_params=True, trainable=False, init_params=-np.pi/4)`. -/
def ryDiagGate : Gate :=
  ⟨.RY, "RY", some [[some ⟨0, -(1/4)⟩]], none, true, false⟩

/-- The method `diagonalizing_gates`.  The four Observable classes override it
(lines 220-223, 241-242, 260-261, 279-280); every other concrete class is
not an `Observable` and has no such attribute, modelled as
`AttributeError`.  (The base `Observable.diagonalizing_gates`, line 131,
raises `NotImplementedError`, but no concrete class resolves to it.) -/
def diagonalizing_gates (g : Gate) : Except Err (List Gate) :=
  match g.type with
  | .Hadamard => .ok [ryDiagGate]
  | .PauliX => .ok [defaultGate .Hadamard]
  | .PauliY => .ok [defaultGate .PauliZ, defaultGate .S, defaultGate .Hadamard]
  | .PauliZ => .ok []
  | _ => .error .attributeError

/-- A fixed (irrelevant) random oracle used to instantiate constructions
whose random branch is not taken, or whose drawn values do not matter. -/
def oracle0 : Nat → Nat → PScalar := fun _ _ => ⟨0, 0⟩

/-- A second random oracle, distinct from `oracle0`, used to exhibit
determinism facts. -/
def oracle1 : Nat → Nat → PScalar := fun i k => ⟨(i : ℚ) + (k : ℚ) + 1, 0⟩

/-- The scalar 1. -/
def one : PScalar := ⟨1, 0⟩

/-- The scalar 0.5 (the `initParams=[0.5]` of the spec example). -/
def half : PScalar := ⟨1/2, 0⟩

/-! ### Helper lemmas about `reset_params`, `mkOperation` and `forwardOp` -/

/-- The pure result of the `enumerate(init_params)` write loop on a single
row: successive entries starting at column `k` are overwritten. -/
def applySets (r : List PEntry) (l : List PScalar) (k : Nat) : List PEntry :=
  match l with
  | [] => r
  | v :: rest => applySets (r.set k (some v)) rest (k + 1)

lemma set_append_len (pre : List PEntry) (x : PEntry) (tl : List PEntry) (a : PEntry) :
    (pre ++ x :: tl).set pre.length a = pre ++ a :: tl := by
  induction pre with
  | nil => rfl
  | cons y ys ih =>
    show y :: ((ys ++ x :: tl).set ys.length a) = y :: (ys ++ a :: tl)
    rw [ih]

lemma applySets_pre (l : List PScalar) : ∀ (pre : List PEntry) (n : Nat),
    l.length ≤ n →
    applySets (pre ++ List.replicate n none) l pre.length =
      (pre ++ l.map some) ++ List.replicate (n - l.length) none := by
  induction l with
  | nil => intro pre n _; simp [applySets]
  | cons v rest ih =>
    intro pre n h
    cases n with
    | zero => simp at h
    | succ m =>
      have h2 : rest.length ≤ m := by simp at h; omega
      show applySets ((pre ++ none :: List.replicate m none).set pre.length (some v))
          rest (pre.length + 1) = _
      rw [set_append_len]
      have hsplit : pre ++ some v :: List.replicate m none =
          (pre ++ [some v]) ++ List.replicate m none := by simp
      have hlen : pre.length + 1 = (pre ++ [some v]).length := by simp
      rw [hsplit, hlen, ih (pre ++ [some v]) m h2]
      simp [Nat.succ_sub_succ]

lemma applySets_replicate (l : List PScalar) (n : Nat) (h : l.length ≤ n) :
    applySets (List.replicate n none) l 0 =
      l.map some ++ List.replicate (n - l.length) none := by
  have := applySets_pre l [] n h
  simpa using this

lemma setColumns_single_ok (l : List PScalar) : ∀ (r : List PEntry) (k : Nat),
    k + l.length ≤ r.length →
    setColumns [r] l k = .ok [applySets r l k] := by
  induction l with
  | nil => intro r k _; rfl
  | cons v rest ih =>
    intro r k h
    have hk : k < r.length := by simp at h; omega
    have hset : setColumn [r] k v = .ok [r.set k (some v)] := by
      simp [setColumn, hk]
    show (match setColumn [r] k v with
      | .ok rows2 => setColumns rows2 rest (k + 1)
      | .error e => .error e) = _
    rw [hset]
    exact ih (r.set k (some v)) (k + 1) (by simp at h ⊢; omega)

lemma setColumns_single_err (l : List PScalar) : ∀ (r : List PEntry) (k : Nat),
    r.length < k + l.length → l ≠ [] →
    setColumns [r] l k = .error .indexError := by
  induction l with
  | nil => intro r k _ hne; exact (hne rfl).elim
  | cons v rest ih =>
    intro r k h _
    show (match setColumn [r] k v with
      | .ok rows2 => setColumns rows2 rest (k + 1)
      | .error e => .error e) = _
    by_cases hk : k < r.length
    · have hset : setColumn [r] k v = .ok [r.set k (some v)] := by
        simp [setColumn, hk]
      rw [hset]
      have hne2 : rest ≠ [] := by
        intro he
        subst he
        simp at h
        omega
      exact ih (r.set k (some v)) (k + 1) (by simp at h ⊢; omega) hne2
    · have hset : setColumn [r] k v = .error .indexError := by
        simp [setColumn, hk]
      rw [hset]

/-- Constructing with `has_params=True` and an explicit too-long sequence
raises `IndexError` from the out-of-bounds column write. -/
lemma mk_list_err (t : GateType) (tr : Bool) (l : List PScalar) (nw : Option Int)
    (o : Nat → Nat → PScalar) (h : num_params t < l.length) :
    mkOperation t true tr (some (.list l)) nw o = .error .indexError := by
  have hne : l ≠ [] := by
    intro he
    subst he
    simp at h
  have hsc : setColumns [List.replicate (num_params t) none] l 0 = .error .indexError :=
    setColumns_single_err l _ 0 (by simpa using h) hne
  simp [mkOperation, reset_params, build_params, hsc]

/-- Constructing with `has_params=True` and an explicit sequence of length
at most `num_params` succeeds; the sequence fills the leading columns and
the remaining columns keep the uninitialized `torch.empty` contents. -/
lemma mk_list_ok (t : GateType) (tr : Bool) (l : List PScalar) (nw : Option Int)
    (o : Nat → Nat → PScalar) (h : l.length ≤ num_params t) :
    mkOperation t true tr (some (.list l)) nw o =
      .ok (⟨t, gateName t,
            some [l.map some ++ List.replicate (num_params t - l.length) none],
            nw, true, tr⟩, false) := by
  have hsc : setColumns [List.replicate (num_params t) none] l 0 =
      .ok [applySets (List.replicate (num_params t) none) l 0] :=
    setColumns_single_ok l _ 0 (by simpa using h)
  simp [mkOperation, reset_params, build_params, hsc, applySets_replicate l _ h]

/-- The stored-parameter attribute after the (possible) assignment
`self.params = params` of lines 108-109: the call-time tensor when one
was supplied, the previous attribute otherwise. -/
def postParams (p : Option ParamsT) (old : Option ParamsT) : Option ParamsT :=
  match p with
  | some pp => some pp
  | none => old

/-- Everything `forward` does on a successful call, in one statement: the
kernel receives the gate's own `func`, the device, the wires, the
post-assignment parameter tensor, and the instance `n_wires` field; the
post-call gate state differs from the input state exactly by the
assignment `self.params = params` when call-time `params` were given. -/
lemma forwardOp_ok_char (g : Gate) (dev : Nat) (w : List Int) (p : Option ParamsT)
    (kc : KernelCall) (g' : Gate) (h : forwardOp g dev w p = .ok (kc, g')) :
    kc.fname = funcName g.type ∧ kc.device = dev ∧ kc.wires = w ∧
    kc.params = g'.params ∧ kc.n_wires = g.n_wires ∧
    g' = { g with params := postParams p g.params } := by
  unfold forwardOp at h
  cases hb : forwardAllowed g p with
  | false => rw [hb] at h; simp at h
  | true =>
    rw [hb] at h
    cases p with
    | some pp =>
      simp at h
      obtain ⟨hkc, hg⟩ := h
      subst hkc
      subst hg
      exact ⟨rfl, rfl, rfl, rfl, rfl, rfl⟩
    | none =>
      simp at h
      obtain ⟨hkc, hg⟩ := h
      subst hkc
      subst hg
      exact ⟨rfl, rfl, rfl, rfl, rfl, rfl⟩

/-! ### Concrete instances used by the claim theorems -/

/-- The instance `tq.S(has_params=True)`: the name "S" is in `fixed_ops`
and (since `S.num_params = 0`) the stored parameter tensor is the empty
row `[[]]`. -/
def gS0 : Gate := ⟨.S, "S", some [[]], none, true, false⟩

/-- The instance `tq.RZ(has_params=True, init_params=1.0)`. -/
def rzG0 : Gate := ⟨.RZ, "RZ", some [[some one]], none, true, false⟩

/-- The instance `tq.MultiRZ(has_params=True, init_params=1.0)` (no
`n_wires` supplied). -/
def mrzG0 : Gate := ⟨.MultiRZ, "MultiRZ", some [[some one]], none, true, false⟩

/-- The instance `tq.MultiRZ(has_params=True, init_params=1.0, n_wires=3)`. -/
def mrzG3 : Gate := ⟨.MultiRZ, "MultiRZ", some [[some one]], some 3, true, false⟩

/-- The instance `tq.RX(has_params=True, init_params=1.0, n_wires=2)`. -/
def rxG2 : Gate := ⟨.RX, "RX", some [[some one]], some 2, true, false⟩

/-- The instance `tq.RY(has_params=True, init_params=[0.5])` of the spec
example. -/
def ryHalfG : Gate := ⟨.RY, "RY", some [[some half]], none, true, false⟩

/-- The kernel invocation produced by `mrzG0.forward(dev, [0, 1])`. -/
def kcM : KernelCall := ⟨"multirz", 0, [0, 1], some [[some one]], none⟩

/-- The gate classes whose `eigvals` succeeds: exactly those defining a
class-level eigenvalue vector. -/
def eigvalsDefined : List GateType :=
  [.Hadamard, .PauliX, .PauliY, .PauliZ, .S, .T, .SX, .CZ]

/-- The validation condition in the words of claim C1 (and spec section
4.3): "exactly one of {gate is in the Fixed set} or {gate declared
hasParams XOR caller supplies params at call time} must hold".  Stated
for comparison with `forwardAllowed`, the condition the source actually
tests (an inclusive, short-circuited `or`). -/
def specC1_exactlyOne (g : Gate) (p : Option ParamsT) : Bool :=
  (fixed_ops.contains g.name) != (g.has_params != p.isSome)

/-! ### Claim theorems -/

/-- C1, counterexample.  The claim says an `apply` call fails with
`ParameterConflict` unless exactly one of {name in Fixed set} and
{hasParams XOR call-time params} holds.  For `tq.S(has_params=True)`
called without parameters both disjuncts hold, and for `tq.S()` called
with parameters the first holds together with the second, so the claim
demands a failure; the code, whose test is the short-circuited inclusive
`or` of line 101-102, lets both calls succeed - and in the second call
the Fixed-named gate even receives the call-time parameters. -/
theorem C1_counterexample :
    mkOperation .S true false none none oracle0 = .ok (gS0, false) ∧
    okB (forwardOp gS0 0 [0] none) = true ∧
    specC1_exactlyOne gS0 none = false ∧
    (∃ kc g2, forwardOp (defaultGate .S) 0 [0] (some [[some one]]) = .ok (kc, g2) ∧
      kc.params = some [[some one]]) ∧
    specC1_exactlyOne (defaultGate .S) (some [[some one]]) = false := by
  exact ⟨rfl, rfl, rfl, ⟨_, _, rfl, rfl⟩, rfl⟩

/-- C1, amended.  `forward` fails - and it fails with the
`AssertionError` that realizes `ParameterConflict` - exactly when the
inclusive disjunction `name in fixed_ops or (has_params XOR params
supplied)` is false; the Fixed-name disjunct short-circuits, so a
Fixed-named gate is never rejected. -/
theorem C1_forward_error_iff :
    ∀ (g : Gate) (dev : Nat) (w : List Int) (p : Option ParamsT),
    forwardOp g dev w p = .error .assertionError ↔ forwardAllowed g p = false := by
  intro g dev w p
  unfold forwardOp
  cases hb : forwardAllowed g p with
  | false => simp
  | true => cases p <;> simp

/-- C2.  For the Diagonal-category gate `T`, the `matrix` property (the
registry entry `mat_dict["t"]`, the textbook matrix `diag(1, e^{i pi/4})`)
differs from `diag` of the `eigvals` property (the class attribute
`[1, 1j]` of line 302, which duplicates the eigenvalues of `S`): the
claimed identity `matrix() = diag(eigenvalues())` fails on `T`. -/
theorem C2_t_matrix_neq_diag_eigvals :
    GateType.T ∈ diagonalTypes ∧
    matrixOf (defaultGate .T) = .ok (mat_dict "t") ∧
    eigvalsOf (defaultGate .T) = .ok [c1, ci] ∧
    Except.map diagMat (eigvalsOf (defaultGate .T)) ≠ matrixOf (defaultGate .T) := by
  exact ⟨by decide, rfl, rfl, by decide⟩

/-- C3, counterexample.  `RZ` is in the Diagonal category (a
`DiagonalOperation` subclass), yet its `eigvals` property raises
`NotImplementedError` (the class never overrides `_eigvals`, so
`DiagonalOperation._eigvals`, line 194, is resolved), refuting "calling
eigenvalues() on any Diagonal gate succeeds". -/
theorem C3_counterexample :
    GateType.RZ ∈ diagonalTypes ∧
    mkOperation .RZ true false (some (.scalar one)) none oracle0 = .ok (rzG0, false) ∧
    eigvalsOf rzG0 = .error .notImplementedError := by
  exact ⟨by decide, rfl, rfl⟩

/-- C3, amended.  `eigvals` succeeds exactly on the eight classes that
define a class-level eigenvalue vector (`Hadamard`, `PauliX`, `PauliY`,
`PauliZ`, `S`, `T`, `SX`, `CZ`) and raises `NotImplementedError` (the
`NotSupported` of the spec) on every other class - so it does fail on
every Parameterized-General gate including `Rot`, but it also fails on
the Fixed gates `CNOT`, `CY`, `SWAP`, `CSWAP`, `Toffoli` and on the
Diagonal gates `RZ`, `PhaseShift`, `U1`, `MultiRZ`. -/
theorem C3_eigvals_defined_iff :
    ∀ g : Gate, okB (eigvalsOf g) = eigvalsDefined.contains g.type ∧
      (eigvalsOf g = .error .notImplementedError ∨ ∃ v, eigvalsOf g = .ok v) := by
  rintro ⟨t, n, p, nw, hp, tr⟩
  cases t <;> exact ⟨rfl, by first | exact Or.inl rfl | exact Or.inr ⟨_, rfl⟩⟩

/-- C4, counterexample.  `tq.RX()` declares no parameters and carries
none, yet `forward` with call-time params succeeds and overwrites the
stored parameter attribute (`self.params = params`, lines 108-109): an
`apply` call does change the stored parameter vector. -/
theorem C4_counterexample :
    (defaultGate .RX).params = none ∧
    forwardOp (defaultGate .RX) 0 [0] (some [[some one]]) =
      .ok (⟨"rx", 0, [0], some [[some one]], none⟩,
           ⟨.RX, "RX", some [[some one]], none, false, false⟩) ∧
    (⟨.RX, "RX", some [[some one]], none, false, false⟩ : Gate).params ≠
      (defaultGate .RX).params := by
  refine ⟨rfl, rfl, by simp [defaultGate]⟩

/-- C4, amended.  A gate constructed with `has_params=False` (and
`trainable=False`) carries no parameter vector, and `matrix` / `eigvals`
reads are pure (they are functions of the gate state); but `forward`
overwrites the stored parameter vector exactly when call-time `params`
are supplied, leaving every other attribute unchanged - so reset is not
the only mutator. -/
theorem C4_params_mutation :
    (∀ (t : GateType) (init : Option InitVal) (nw : Option Int)
        (o : Nat → Nat → PScalar),
      mkOperation t false false init nw o =
        .ok (⟨t, gateName t, none, nw, false, false⟩, false)) ∧
    (∀ (g : Gate) (dev : Nat) (w : List Int) (p : Option ParamsT)
        (kc : KernelCall) (g' : Gate),
      forwardOp g dev w p = .ok (kc, g') →
        g'.params = postParams p g.params ∧
        g'.type = g.type ∧ g'.name = g.name ∧ g'.n_wires = g.n_wires ∧
        g'.has_params = g.has_params ∧ g'.trainable = g.trainable) := by
  constructor
  · intro t init nw o
    rfl
  · intro g dev w p kc g' h
    obtain ⟨_, _, _, _, _, hg⟩ := forwardOp_ok_char g dev w p kc g' h
    subst hg
    cases p <;> exact ⟨rfl, rfl, rfl, rfl, rfl, rfl⟩

/-- C4, witness: the mutation law of `C4_params_mutation` applied to the
concrete successful call `tq.RX().forward(dev, [0], params=[[1.0]])`. -/
theorem C4_witness :
    (⟨.RX, "RX", some [[some one]], none, false, false⟩ : Gate).params =
      some [[some one]] ∧
    GateType.RX = (defaultGate .RX).type ∧
    "RX" = (defaultGate .RX).name ∧
    (none : Option Int) = (defaultGate .RX).n_wires ∧
    false = (defaultGate .RX).has_params ∧
    false = (defaultGate .RX).trainable := by
  have h := C4_params_mutation.2 (defaultGate .RX) 0 [0] (some [[some one]])
    ⟨"rx", 0, [0], some [[some one]], none⟩
    ⟨.RX, "RX", some [[some one]], none, false, false⟩ rfl
  exact h

/-- C5, counterexample.  `tq.Rot(has_params=True, init_params=[1.0])`
supplies a sequence of length 1 to a gate with `num_params = 3`: no
`ShapeMismatch` is raised - construction succeeds - and the two trailing
parameter entries are left holding the unspecified `torch.empty`
contents. -/
theorem C5_counterexample :
    mkOperation .Rot true false (some (.list [one])) none oracle0 =
      .ok (⟨.Rot, "Rot", some [[some one, none, none]], none, true, false⟩, false) ∧
    (1 : Nat) ≠ num_params .Rot := by
  exact ⟨rfl, by decide⟩

/-- C5, amended.  An explicit initial-parameter sequence longer than
`num_params` fails (with the `IndexError` of the out-of-bounds column
write - the shape error of the spec); a sequence of length at most
`num_params` succeeds, setting the leading entries from the sequence and
leaving every remaining entry holding the unspecified uninitialized
value. -/
theorem C5_reset_list_characterization :
    ∀ (t : GateType) (tr : Bool) (nw : Option Int) (o : Nat → Nat → PScalar)
      (l : List PScalar),
    (num_params t < l.length →
      mkOperation t true tr (some (.list l)) nw o = .error .indexError) ∧
    (l.length ≤ num_params t →
      mkOperation t true tr (some (.list l)) nw o =
        .ok (⟨t, gateName t,
              some [l.map some ++ List.replicate (num_params t - l.length) none],
              nw, true, tr⟩, false)) := by
  intro t tr nw o l
  exact ⟨fun h => mk_list_err t tr l nw o h, fun h => mk_list_ok t tr l nw o h⟩

/-- C5, witness: the characterization applied to a too-long sequence on
`RX` (`num_params = 1`) and to a short sequence on `Rot`
(`num_params = 3`). -/
theorem C5_witness :
    mkOperation .RX true false (some (.list [one, one])) none oracle0 =
      .error .indexError ∧
    mkOperation .Rot true true (some (.list [half])) none oracle0 =
      .ok (⟨.Rot, "Rot", some [[some half, none, none]], none, true, true⟩, false) := by
  constructor
  · exact (C5_reset_list_characterization .RX false none oracle0 [one, one]).1 (by decide)
  · exact (C5_reset_list_characterization .Rot true none oracle0 [half]).2 (by decide)

/-- C6, counterexample.  Constructing
`tq.RX(has_params=False, trainable=True, init_params=[1.0, 2.0])` does
raise: `has_params` is forced to `True` and allocation proceeds, but the
two-element initial sequence overruns `num_params = 1` and the reset
raises `IndexError` - so "never raises" is false as stated. -/
theorem C6_counterexample :
    mkOperation .RX false true (some (.list [one, one])) none oracle0 =
      .error .indexError := rfl

/-- C6, amended.  The `trainable=True, has_params=False` conflict itself
is never a hard failure: construction behaves exactly like
`has_params=True` except that the diagnostic flag is set, so it raises
only when the explicit initial values would equally make a
`has_params=True` construction raise; with no explicit initial values it
always succeeds, and the object then has `has_params=True` and an
allocated, initialized parameter vector. -/
theorem C6_trainable_forces_has_params :
    (∀ (t : GateType) (init : Option InitVal) (nw : Option Int)
        (o : Nat → Nat → PScalar),
      mkOperation t false true init nw o =
        Except.map (fun gw => (gw.1, true)) (mkOperation t true true init nw o)) ∧
    (∀ (t : GateType) (nw : Option Int) (o : Nat → Nat → PScalar),
      ∃ g : Gate, mkOperation t false true none nw o = .ok (g, true) ∧
        g.has_params = true ∧ g.params.isSome = true) := by
  constructor
  · intro t init nw o
    unfold mkOperation
    cases h : reset_params (build_params t) init o <;> simp [h, Except.map]
  · intro t nw o
    exact ⟨_, rfl, rfl, rfl⟩

/-- C7, counterexample.  The kernel receives `n_wires` iff the instance
field is non-null, not iff the declared arity is `AnyWires`: a `MultiRZ`
built without `n_wires` (arity `AnyWires`) is dispatched without a
`wireCount` argument, while an `RX` built with `n_wires=2` (declared
arity 1) is dispatched with one. -/
theorem C7_counterexample :
    mkOperation .MultiRZ true false (some (.scalar one)) none oracle0 =
      .ok (mrzG0, false) ∧
    num_wires .MultiRZ = AnyWires ∧
    (∃ kc g2, forwardOp mrzG0 0 [0, 1] none = .ok (kc, g2) ∧ kc.n_wires = none) ∧
    mkOperation .RX true false (some (.scalar one)) (some 2) oracle0 =
      .ok (rxG2, false) ∧
    num_wires .RX ≠ AnyWires ∧
    (∃ kc g2, forwardOp rxG2 0 [0] none = .ok (kc, g2) ∧ kc.n_wires = some 2) := by
  refine ⟨rfl, rfl, ⟨_, _, rfl, rfl⟩, rfl, by decide, ⟨_, _, rfl, rfl⟩⟩

/-- C7, amended.  On every successful `apply`, the kernel is the gate's
own `func` and receives the device, the wires, the post-assignment stored
parameter tensor (present iff that tensor is non-null), and the
instance's `n_wires` field (present iff that field is non-null,
irrespective of the declared arity). -/
theorem C7_kernel_contract :
    ∀ (g : Gate) (dev : Nat) (w : List Int) (p : Option ParamsT)
      (kc : KernelCall) (g' : Gate),
    forwardOp g dev w p = .ok (kc, g') →
      kc.fname = funcName g.type ∧ kc.device = dev ∧ kc.wires = w ∧
      kc.params = g'.params ∧
      kc.params = postParams p g.params ∧
      kc.n_wires = g.n_wires := by
  intro g dev w p kc g' h
  obtain ⟨h1, h2, h3, h4, h5, h6⟩ := forwardOp_ok_char g dev w p kc g' h
  refine ⟨h1, h2, h3, h4, ?_, h5⟩
  rw [h4, h6]

/-- C7, witness: the kernel contract applied to the concrete call
`mrzG0.forward(dev, [0, 1])`. -/
theorem C7_witness :
    kcM.fname = funcName mrzG0.type ∧ kcM.device = 0 ∧ kcM.wires = [0, 1] ∧
    kcM.params = mrzG0.params ∧
    kcM.params = postParams none mrzG0.params ∧
    kcM.n_wires = mrzG0.n_wires := by
  exact C7_kernel_contract mrzG0 0 [0, 1] none kcM mrzG0 rfl

/-- C8.  Construction with explicit initial values is deterministic (the
random oracle is never consulted): a scalar is broadcast to every
parameter entry, a sequence of length at most `num_params` sets entry `k`
to its `k`-th element, and `tq.RY(has_params=True, init_params=[0.5])`
stores exactly `[[0.5]]` and derives its matrix as `ry_matrix` applied to
exactly that stored tensor - the RY(0.5) matrix, not a random draw. -/
theorem C8_deterministic_init :
    (∀ (t : GateType) (tr : Bool) (nw : Option Int) (v : InitVal)
        (o1 o2 : Nat → Nat → PScalar),
      mkOperation t true tr (some v) nw o1 = mkOperation t true tr (some v) nw o2) ∧
    (∀ (t : GateType) (tr : Bool) (nw : Option Int) (q : PScalar)
        (o : Nat → Nat → PScalar),
      mkOperation t true tr (some (.scalar q)) nw o =
        .ok (⟨t, gateName t, some [List.replicate (num_params t) (some q)],
              nw, true, tr⟩, false)) ∧
    (∀ (t : GateType) (tr : Bool) (nw : Option Int) (l : List PScalar)
        (o : Nat → Nat → PScalar),
      l.length ≤ num_params t →
      mkOperation t true tr (some (.list l)) nw o =
        .ok (⟨t, gateName t,
              some [l.map some ++ List.replicate (num_params t - l.length) none],
              nw, true, tr⟩, false)) ∧
    (∀ o : Nat → Nat → PScalar,
      mkOperation .RY true false (some (.list [half])) none o = .ok (ryHalfG, false) ∧
      matrixOf ryHalfG = .ok (Mat.externalFn "ry_matrix" (some [[some half]]))) := by
  refine ⟨?_, ?_, ?_, ?_⟩
  · intro t tr nw v o1 o2
    cases v <;> rfl
  · intro t tr nw q o
    simp [mkOperation, reset_params, build_params, List.map_replicate]
  · intro t tr nw l o h
    exact mk_list_ok t tr l nw o h
  · intro o
    exact ⟨rfl, rfl⟩

/-- C8, witness: the sequence clause of `C8_deterministic_init` applied
to `tq.CRot(has_params=True, trainable=True, init_params=[1.0], n_wires=5)`
under the nontrivial oracle. -/
theorem C8_witness :
    mkOperation .CRot true true (some (.list [one])) (some 5) oracle1 =
      .ok (⟨.CRot, "CRot", some [[some one, none, none]], some 5, true, true⟩, false) := by
  exact C8_deterministic_init.2.2.1 .CRot true (some 5) [one] oracle1 (by decide)

/-- C9.  `tq.PauliY().diagonalizing_gates()` returns exactly three
operators, in order a `PauliZ`, an `S` and a `Hadamard` (line 261). -/
theorem C9_pauliy_diagonalizing_gates :
    ∃ l : List Gate, diagonalizing_gates (defaultGate .PauliY) = .ok l ∧
      l.length = 3 ∧ l.map Gate.type = [.PauliZ, .S, .Hadamard] ∧
      l = [defaultGate .PauliZ, defaultGate .S, defaultGate .Hadamard] :=
  ⟨[defaultGate .PauliZ, defaultGate .S, defaultGate .Hadamard], rfl, rfl, rfl, rfl⟩

/-- C10.  For every `MultiRZ` instance - whatever its stored parameters
and its `n_wires` field - reading the `matrix` property fails: the
inherited property calls `self._matrix(self.params)` with one argument
while `MultiRZ._matrix(cls, params, n_wires)` (line 458) requires two, a
`TypeError`. -/
theorem C10_multirz_matrix_fails :
    ∀ g : Gate, g.type = .MultiRZ → matrixOf g = .error .typeError := by
  intro g h
  unfold matrixOf
  rw [h]
  rfl

/-- C10, witness: the failure at the concrete instances built with and
without `n_wires`. -/
theorem C10_witness :
    matrixOf mrzG0 = .error .typeError ∧ matrixOf mrzG3 = .error .typeError :=
  ⟨C10_multirz_matrix_fails mrzG0 rfl, C10_multirz_matrix_fails mrzG3 rfl⟩

end PyQ
